import Mathlib

/-!
Shallow embedding of `scripts/collect_traffic_data.py`: the weather snapshot
fetcher (`get_weather_data`), the retrying route fetcher (`get_traffic_data`),
the per-cycle orchestrator (`collect_all_routes`) and the CSV dataset sink.

HTTP responses, JSON payloads and the process environment are modelled as
explicit inputs; sleeps and network calls are tracked as counters.  Python
numbers are modelled as rationals; Python `round(x, n)` (round-half-even on
the scaled value) is modelled by `pyRound`.
-/

namespace Traffic

/-- Python `round` to an integer: round-half-to-even (banker's rounding). -/
def roundHalfEven (x : ℚ) : ℤ :=
  if Int.fract x = 1/2 then
    (if ⌊x⌋ % 2 = 0 then ⌊x⌋ else ⌊x⌋ + 1)
  else
    round x

/-- Python `round(x, n)`: round-half-even after scaling by `10^n`. -/
def pyRound (n : ℕ) (x : ℚ) : ℚ :=
  (roundHalfEven (x * 10 ^ n) : ℚ) / 10 ^ n

theorem roundHalfEven_nonneg {x : ℚ} (hx : 0 ≤ x) : 0 ≤ roundHalfEven x := by
  unfold roundHalfEven
  split
  · split
    · exact Int.floor_nonneg.mpr hx
    · have h0 : (0 : ℤ) ≤ ⌊x⌋ := Int.floor_nonneg.mpr hx
      omega
  · rw [round_eq]
    have : (0 : ℚ) ≤ x + 1/2 := by linarith
    exact Int.floor_nonneg.mpr this

theorem pyRound_nonneg {x : ℚ} (n : ℕ) (hx : 0 ≤ x) : 0 ≤ pyRound n x := by
  unfold pyRound
  apply div_nonneg
  · exact_mod_cast roundHalfEven_nonneg (by positivity)
  · positivity

theorem pyRound_zero (n : ℕ) : pyRound n 0 = 0 := by
  unfold pyRound roundHalfEven
  norm_num [Int.fract]

/-! ## Weather snapshot fetcher (`get_weather_data`, lines 37-88) -/

/-- The dict returned by `get_weather_data`. -/
structure WeatherSnapshot where
  temperature : Option ℚ
  humidity : Option ℚ
  weather_condition : Option String
  rain_1h : Option ℚ
  wind_speed : Option ℚ
deriving DecidableEq, Repr

/-- The all-`None` snapshot returned on every failure path. -/
def nullWeather : WeatherSnapshot :=
  { temperature := none, humidity := none, weather_condition := none,
    rain_1h := none, wind_speed := none }

/-- JSON body of an OpenWeatherMap response: each field is `none` when the
corresponding key path is absent (Python raises `KeyError` on `data[...]`
access of an absent key; `data.get('rain', \x7b\x7d).get('1h', 0)` defaults
instead). -/
structure WeatherPayload where
  main_temp : Option ℚ
  main_humidity : Option ℚ
  weather0_main : Option String
  rain_1h : Option ℚ
  wind_speed : Option ℚ
deriving DecidableEq, Repr

/-- Outcome of one `requests.get`: either a status code with a parsed body,
or a raised `requests` exception (network error, timeout). -/
inductive HttpResult (α : Type) where
  | ok (status : ℕ) (body : α)
  | exn
deriving DecidableEq, Repr

/-- `get_weather_data()`: returns the all-null snapshot when the key is
unset, on a non-200 status, on a network exception, or when field extraction
raises `KeyError` (the bare `except Exception` catches it); on a well-formed
200 body it populates every field, defaulting `rain.1h` to `0`. -/
def get_weather_data (apiKey : Option String)
    (resp : HttpResult WeatherPayload) : WeatherSnapshot :=
  match apiKey with
  | none => nullWeather
  | some _ =>
    match resp with
    | .exn => nullWeather
    | .ok status body =>
      if status = 200 then
        match body.main_temp, body.main_humidity, body.weather0_main,
            body.wind_speed with
        | some t, some h, some c, some w =>
          { temperature := some (pyRound 1 t), humidity := some h,
            weather_condition := some c, rain_1h := some (body.rain_1h.getD 0),
            wind_speed := some (pyRound 1 w) }
        | _, _, _, _ => nullWeather
      else nullWeather

/-- Every field of the snapshot is `None`. -/
def WeatherSnapshot.allNull (w : WeatherSnapshot) : Prop :=
  w.temperature = none ∧ w.humidity = none ∧ w.weather_condition = none ∧
    w.rain_1h = none ∧ w.wind_speed = none

/-- Every field of the snapshot is populated. -/
def WeatherSnapshot.allSome (w : WeatherSnapshot) : Prop :=
  w.temperature.isSome ∧ w.humidity.isSome ∧ w.weather_condition.isSome ∧
    w.rain_1h.isSome ∧ w.wind_speed.isSome

/-- C6: the weather fetcher never fails outward (it is total on every
environment) and the snapshot it returns is never partially null: for every
credential state and HTTP outcome, either all five fields are null or all
five are populated. -/
theorem weather_all_or_nothing (apiKey : Option String)
    (resp : HttpResult WeatherPayload) :
    (get_weather_data apiKey resp).allNull ∨
      (get_weather_data apiKey resp).allSome := by
  unfold get_weather_data
  cases apiKey with
  | none => left; exact ⟨rfl, rfl, rfl, rfl, rfl⟩
  | some k =>
    cases resp with
    | exn => left; exact ⟨rfl, rfl, rfl, rfl, rfl⟩
    | ok status body =>
      by_cases hs : status = 200
      · simp only [hs, if_pos rfl]
        rcases ht : body.main_temp with _ | t <;>
          rcases hh : body.main_humidity with _ | h <;>
          rcases hc : body.weather0_main with _ | c <;>
          rcases hw : body.wind_speed with _ | w <;>
          first
            | (left; exact ⟨rfl, rfl, rfl, rfl, rfl⟩)
            | (right; exact ⟨rfl, rfl, rfl, rfl, rfl⟩)
      · simp only [if_neg hs]
        left; exact ⟨rfl, rfl, rfl, rfl, rfl⟩

/-- C10: on a successful fetch (HTTP 200, all required fields present) whose
payload omits `rain.1h`, the snapshot's `rain_1h` is `some 0`, not null. -/
theorem weather_rain_defaults_to_zero (k : String) (body : WeatherPayload)
    (t h : ℚ) (c : String) (w : ℚ)
    (ht : body.main_temp = some t) (hh : body.main_humidity = some h)
    (hc : body.weather0_main = some c) (hw : body.wind_speed = some w)
    (hr : body.rain_1h = none) :
    (get_weather_data (some k) (.ok 200 body)).rain_1h = some 0 := by
  unfold get_weather_data
  simp [ht, hh, hc, hw, hr]

/-- Witness for C10: a concrete 200 payload with no `rain` key yields
`rain_1h = some 0`. -/
theorem weather_rain_defaults_to_zero_witness :
    (get_weather_data (some "k")
        (.ok 200 { main_temp := some 25, main_humidity := some 60,
                   weather0_main := some "Clouds", rain_1h := none,
                   wind_speed := some 3 })).rain_1h = some 0 :=
  weather_rain_defaults_to_zero "k" _ 25 60 "Clouds" 3 rfl rfl rfl rfl rfl

/-! ## Retrying route fetcher (`get_traffic_data`, lines 91-144) -/

/-- `routes[0].summary` of a TomTom response: each field is `none` when the
key is absent (`summary['lengthInMeters']` / `summary['travelTimeInSeconds']`
raise `KeyError` when absent; `summary.get('trafficDelayInSeconds', 0)`
defaults). -/
structure RouteSummary where
  lengthInMeters : Option ℚ
  travelTimeInSeconds : Option ℚ
  trafficDelayInSeconds : Option ℚ
deriving DecidableEq, Repr

/-- One element of the `routes` list; `summary` is `none` when the key is
absent (`route_info['summary']` raises `KeyError`). -/
structure TomTomRoute where
  summary : Option RouteSummary
deriving DecidableEq, Repr

/-- Body of a TomTom response; `routes = none` models the `'routes'` key
being absent (`'routes' in data` is false). -/
structure TomTomBody where
  routes : Option (List TomTomRoute)
deriving DecidableEq, Repr

/-- Response observed by one attempt of the fetch loop. -/
abbrev RouteResp := HttpResult TomTomBody

/-- The dict returned on the success path of `get_traffic_data`. -/
structure TrafficMeasurement where
  distance_km : ℚ
  duration_minutes : ℚ
  traffic_delay_minutes : ℚ
  status : String
deriving DecidableEq, Repr

/-- How one call of `get_traffic_data` ends: a success dict, `None`
(empty-route response or retries exhausted), or an uncaught exception
(`KeyError` while navigating a malformed 200 body — the `except` clause
catches only `requests.exceptions.RequestException`). -/
inductive FetchOutcome where
  | success (m : TrafficMeasurement)
  | absent
  | raised
deriving DecidableEq, Repr

/-- Result of a call of `get_traffic_data`: its outcome, the total seconds
slept inside the call, and the number of HTTP requests issued. -/
structure FetchRes where
  outcome : FetchOutcome
  sleep : ℕ
  calls : ℕ
deriving DecidableEq, Repr

/-- The success dict built from `routes[0].summary` fields (line 117-122). -/
def mkMeasurement (len dur : ℚ) (delay : Option ℚ) : TrafficMeasurement :=
  { distance_km := pyRound 2 (len / 1000),
    duration_minutes := pyRound 1 (dur / 60),
    traffic_delay_minutes := pyRound 1 (delay.getD 0 / 60),
    status := "success" }

/-- The attempt loop of `get_traffic_data` over the remaining attempts'
responses.  The head of the list is the current attempt; the `attempt <
max_retries - 1` guard on the 5-second transient sleep is `rest ≠ []`; the
60-second rate-limit sleep is unconditional, as in the source. -/
def getTrafficLoop : List RouteResp → FetchRes
  | [] => { outcome := .absent, sleep := 0, calls := 0 }
  | r :: rest =>
    match r with
    | .ok status body =>
      if status = 200 then
        match body.routes with
        | some (r0 :: _) =>
          match r0.summary with
          | some s =>
            match s.lengthInMeters, s.travelTimeInSeconds with
            | some len, some dur =>
              { outcome := .success (mkMeasurement len dur s.trafficDelayInSeconds),
                sleep := 0, calls := 1 }
            | _, _ => { outcome := .raised, sleep := 0, calls := 1 }
          | none => { outcome := .raised, sleep := 0, calls := 1 }
        | _ =>
          { outcome := .absent, sleep := 0, calls := 1 }
      else if status = 429 then
        let sub := getTrafficLoop rest
        { outcome := sub.outcome, sleep := 60 + sub.sleep,
          calls := 1 + sub.calls }
      else
        let sub := getTrafficLoop rest
        { outcome := sub.outcome,
          sleep := (if rest = [] then 0 else 5) + sub.sleep,
          calls := 1 + sub.calls }
    | .exn =>
      let sub := getTrafficLoop rest
      { outcome := sub.outcome,
        sleep := (if rest = [] then 0 else 5) + sub.sleep,
        calls := 1 + sub.calls }

/-- `get_traffic_data(..., max_retries)`: run the attempt loop over the
responses of attempts `0, ..., max_retries - 1`. -/
def get_traffic_data (responses : ℕ → RouteResp) (max_retries : ℕ) : FetchRes :=
  getTrafficLoop ((List.range max_retries).map responses)

/-- An HTTP 429 response (any body). -/
def resp429 : RouteResp := .ok 429 { routes := none }

/-- An HTTP 200 response whose `routes` list is empty. -/
def respEmptyRoutes : RouteResp := .ok 200 { routes := some [] }

/-- A response is retryable when its attempt continues the loop: a network
exception or any non-200 status (including 429). -/
def retryable : RouteResp → Bool
  | .exn => true
  | .ok status _ => status ≠ 200

/-- Seconds slept by one retryable attempt when further attempts remain:
60 on a 429, 5 otherwise. -/
def backoff : RouteResp → ℕ
  | .ok 429 _ => 60
  | _ => 5

/-- `routes[0].summary` of a 200 response, when present. -/
def firstSummary : RouteResp → Option RouteSummary
  | .ok status body =>
    if status = 200 then
      match body.routes with
      | some (r0 :: _) => r0.summary
      | _ => none
    else none
  | .exn => none

/-- A success outcome of the loop is built by `mkMeasurement` from the first
route's summary of some 200 response among the attempts. -/
theorem getTrafficLoop_success {rs : List RouteResp} {m : TrafficMeasurement}
    (h : (getTrafficLoop rs).outcome = .success m) :
    ∃ r ∈ rs, ∃ s len dur, firstSummary r = some s ∧
      s.lengthInMeters = some len ∧ s.travelTimeInSeconds = some dur ∧
      m = mkMeasurement len dur s.trafficDelayInSeconds := by
  induction rs with
  | nil => simp [getTrafficLoop] at h
  | cons r rest ih =>
    cases r with
    | exn =>
      simp only [getTrafficLoop] at h
      obtain ⟨r', hmem, s, len, dur, hfs, hlen, hdur, hm⟩ := ih h
      exact ⟨r', List.mem_cons_of_mem _ hmem, s, len, dur, hfs, hlen, hdur, hm⟩
    | ok status body =>
      by_cases h200 : status = 200
      · subst h200
        rcases hb : body.routes with _ | ⟨_ | ⟨r0, rtl⟩⟩
        · simp [getTrafficLoop, hb] at h
        · simp [getTrafficLoop, hb] at h
        · rcases hs : r0.summary with _ | s
          · simp [getTrafficLoop, hb, hs] at h
          · rcases hlen : s.lengthInMeters with _ | len
            · rcases hdur : s.travelTimeInSeconds with _ | dur <;>
                simp [getTrafficLoop, hb, hs, hlen, hdur] at h
            · rcases hdur : s.travelTimeInSeconds with _ | dur
              · simp [getTrafficLoop, hb, hs, hlen, hdur] at h
              · simp [getTrafficLoop, hb, hs, hlen, hdur] at h
                refine ⟨.ok 200 body, List.mem_cons_self _ _, s, len, dur, ?_,
                  hlen, hdur, h.symm⟩
                simp [firstSummary, hb, hs]
      · by_cases h429 : status = 429
        · subst h429
          simp only [getTrafficLoop] at h
          obtain ⟨r', hmem, s, len, dur, hfs, hlen, hdur, hm⟩ := ih h
          exact ⟨r', List.mem_cons_of_mem _ hmem, s, len, dur, hfs, hlen, hdur, hm⟩
        · simp only [getTrafficLoop, if_neg h200, if_neg h429] at h
          obtain ⟨r', hmem, s, len, dur, hfs, hlen, hdur, hm⟩ := ih h
          exact ⟨r', List.mem_cons_of_mem _ hmem, s, len, dur, hfs, hlen, hdur, hm⟩

/-- C7: a measurement returned with status success has non-negative
`distance_km` and `duration_minutes` (given that the summaries the upstream
served carry non-negative lengths and travel times, as the schema
guarantees), and its `traffic_delay_minutes` is 0 when the upstream summary
omits `trafficDelayInSeconds`. -/
theorem success_measurement_fields (rs : List RouteResp) (m : TrafficMeasurement)
    (h : (getTrafficLoop rs).outcome = .success m)
    (hn : ∀ r ∈ rs, ∀ s, firstSummary r = some s →
      0 ≤ s.lengthInMeters.getD 0 ∧ 0 ≤ s.travelTimeInSeconds.getD 0) :
    0 ≤ m.distance_km ∧ 0 ≤ m.duration_minutes ∧ m.status = "success" ∧
      ((∀ r ∈ rs, ∀ s, firstSummary r = some s → s.trafficDelayInSeconds = none) →
        m.traffic_delay_minutes = 0) := by
  obtain ⟨r, hmem, s, len, dur, hfs, hlen, hdur, hm⟩ := getTrafficLoop_success h
  obtain ⟨hl0, hd0⟩ := hn r hmem s hfs
  rw [hlen] at hl0
  rw [hdur] at hd0
  subst hm
  refine ⟨?_, ?_, rfl, ?_⟩
  · exact pyRound_nonneg 2 (by positivity)
  · exact pyRound_nonneg 1 (by positivity)
  · intro hd
    have : s.trafficDelayInSeconds = none := hd r hmem s hfs
    simp only [mkMeasurement, this, Option.getD_none, zero_div]
    exact pyRound_zero 1

/-- A concrete well-formed TomTom summary: 12000 m, 900 s, no delay field. -/
def summaryW : RouteSummary :=
  { lengthInMeters := some 12000, travelTimeInSeconds := some 900,
    trafficDelayInSeconds := none }

/-- A concrete 200 response carrying `summaryW` as `routes[0].summary`. -/
def respW : RouteResp := .ok 200 { routes := some [{ summary := some summaryW }] }

/-- Witness for C7 at a concrete successful response (12000 m, 900 s, no
delay field): distance 12 km, duration 15 min, delay 0. -/
theorem success_measurement_fields_witness :
    0 ≤ (mkMeasurement 12000 900 none).distance_km ∧
      0 ≤ (mkMeasurement 12000 900 none).duration_minutes ∧
      (mkMeasurement 12000 900 none).status = "success" ∧
      (mkMeasurement 12000 900 none).traffic_delay_minutes = 0 := by
  have hresp : (getTrafficLoop [respW]).outcome =
      .success (mkMeasurement 12000 900 none) := rfl
  have h := success_measurement_fields _ _ hresp ?hn
  case hn =>
    intro r hr s hs
    rw [List.mem_singleton] at hr
    subst hr
    have hs' : some summaryW = some s := hs
    cases hs'
    decide
  refine ⟨h.1, h.2.1, h.2.2.1, h.2.2.2 ?_⟩
  intro r hr s hs
  rw [List.mem_singleton] at hr
  subst hr
  have hs' : some summaryW = some s := hs
  cases hs'
  rfl

/-- C2 counterexample: with `maxAttempts = 1` and every attempt answered
HTTP 429, the fetcher does return absent, but the total sleep is 60 seconds,
not `(maxAttempts - 1) * 60 = 0`: the 60-second sleep also runs after the
last attempt. -/
theorem all_429_sleep_cex :
    ¬ ((get_traffic_data (fun _ => resp429) 1).outcome = .absent ∧
        (get_traffic_data (fun _ => resp429) 1).sleep = (1 - 1) * 60) := by
  decide

/-- Unfolding step of the loop on a 429 head: the 60-second sleep is
unconditional (it also runs when no attempts remain). -/
theorem getTrafficLoop_cons_429 (body : TomTomBody) (rest : List RouteResp) :
    getTrafficLoop (.ok 429 body :: rest) =
      { outcome := (getTrafficLoop rest).outcome,
        sleep := 60 + (getTrafficLoop rest).sleep,
        calls := 1 + (getTrafficLoop rest).calls } := by
  simp [getTrafficLoop]

/-- Unfolding step of the loop on any retryable head when attempts remain:
one call, the head's backoff sleep, then the loop on the rest. -/
theorem getTrafficLoop_cons_retryable (r : RouteResp) (rest : List RouteResp)
    (hr : retryable r = true) (hne : rest ≠ []) :
    getTrafficLoop (r :: rest) =
      { outcome := (getTrafficLoop rest).outcome,
        sleep := backoff r + (getTrafficLoop rest).sleep,
        calls := 1 + (getTrafficLoop rest).calls } := by
  cases r with
  | exn => simp [getTrafficLoop, backoff, if_neg hne]
  | ok status body =>
    have h200 : status ≠ 200 := by simpa [retryable] using hr
    by_cases h429 : status = 429
    · subst h429
      simp [getTrafficLoop, backoff]
    · have hb : backoff (.ok status body) = 5 := by
        unfold backoff
        split
        · rename_i heq
          cases heq
          exact absurd rfl h429
        · rfl
      simp [getTrafficLoop, if_neg h200, if_neg h429, if_neg hne, hb]

/-- All-429 attempt lists: the loop returns absent, sleeps 60 seconds per
attempt (including the last), and issues one call per attempt. -/
theorem getTrafficLoop_replicate_429 (body : TomTomBody) (k : ℕ) :
    getTrafficLoop (List.replicate k (.ok 429 body)) =
      { outcome := .absent, sleep := 60 * k, calls := k } := by
  induction k with
  | zero => rfl
  | succ k ih =>
    rw [List.replicate_succ, getTrafficLoop_cons_429, ih]
    show FetchRes.mk .absent (60 + 60 * k) (1 + k) =
      FetchRes.mk .absent (60 * (k + 1)) (k + 1)
    congr 1 <;> first | rfl | omega

/-- C2 (amended): for every `maxAttempts ≥ 1`, if every attempt receives
HTTP 429 the fetcher returns absent, the total sleep is `maxAttempts * 60`
seconds (the 60-second sleep is unconditional, so it also runs after the
last attempt), and each 429 consumes exactly one attempt (one HTTP call per
attempt, `maxAttempts` in total). -/
theorem all_429_exhaustion (responses : ℕ → RouteResp) (n : ℕ)
    (h : ∀ a, a < n → responses a = resp429) (hn : 1 ≤ n) :
    get_traffic_data responses n =
      { outcome := .absent, sleep := 60 * n, calls := n } := by
  have hrepl : (List.range n).map responses =
      List.replicate n (HttpResult.ok 429 { routes := none }) := by
    rw [List.eq_replicate_iff]
    constructor
    · simp
    · intro x hx
      obtain ⟨a, ha, rfl⟩ := List.mem_map.mp hx
      exact h a (List.mem_range.mp ha)
  unfold get_traffic_data
  rw [hrepl, getTrafficLoop_replicate_429]

/-- Witness for C2 (amended) at `maxAttempts = 2`: absent, 120 seconds of
sleep, 2 calls. -/
theorem all_429_exhaustion_witness :
    1 ≤ 2 ∧ get_traffic_data (fun _ => resp429) 2 =
      { outcome := .absent, sleep := 120, calls := 2 } := by
  refine ⟨by decide, ?_⟩
  have h := all_429_exhaustion (fun _ => resp429) 2 (fun a _ => rfl) (by decide)
  simpa using h

/-- C5: on any attempt that receives HTTP 200 with an empty `routes` list
(all earlier attempts having been retryable), the fetcher returns absent on
that very attempt: no further HTTP call is made and no sleep happens from
that attempt on, whatever responses the remaining attempts would have
given. -/
theorem empty_routes_immediate (pre rest : List RouteResp)
    (h : ∀ r ∈ pre, retryable r = true) :
    getTrafficLoop (pre ++ respEmptyRoutes :: rest) =
      { outcome := .absent, sleep := (pre.map backoff).sum,
        calls := pre.length + 1 } := by
  induction pre with
  | nil => simp [getTrafficLoop, respEmptyRoutes]
  | cons r pre ih =>
    have hr : retryable r = true := h r (List.mem_cons_self _ _)
    have h2 : ∀ x ∈ pre, retryable x = true :=
      fun x hx => h x (List.mem_cons_of_mem _ hx)
    have hne : pre ++ respEmptyRoutes :: rest ≠ [] := by simp
    rw [List.cons_append, getTrafficLoop_cons_retryable r _ hr hne, ih h2]
    show FetchRes.mk .absent (backoff r + (pre.map backoff).sum)
        (1 + (pre.length + 1)) =
      FetchRes.mk .absent (((r :: pre).map backoff).sum) ((r :: pre).length + 1)
    rw [List.map_cons, List.sum_cons, List.length_cons]
    congr 1 <;> first | rfl | omega

/-- Witness for C5: one transient failure, then an empty-routes 200, with a
further attempt remaining: absent after 2 calls and a single 5-second
sleep. -/
theorem empty_routes_immediate_witness :
    (∀ r ∈ ([HttpResult.exn] : List RouteResp), retryable r = true) ∧
      getTrafficLoop (([HttpResult.exn] : List RouteResp) ++
          respEmptyRoutes :: [resp429]) =
        { outcome := .absent, sleep := 5, calls := 2 } := by
  refine ⟨by decide, ?_⟩
  have h := empty_routes_immediate [HttpResult.exn] [resp429] (by decide)
  simpa [backoff] using h

/-! ## Collection orchestrator (`collect_all_routes`, lines 147-261) -/

/-- One endpoint of a configured route (`origin` / `destination`). -/
structure Endpoint where
  name : String
  lat : ℚ
  lon : ℚ
deriving DecidableEq, Repr

/-- One entry of the `routes` list of the configuration file. -/
structure Route where
  id : String
  name : String
  origin : Endpoint
  destination : Endpoint
deriving DecidableEq, Repr

/-- The temporal context of a cycle: the fields of the single
`datetime.now()` observation (lines 167-169), with Python's weekday
numbering Monday = 0 .. Sunday = 6. -/
structure Now where
  timestamp_str : String
  date_str : String
  hour : ℕ
  weekday : ℕ
  dayName : String
deriving DecidableEq, Repr

/-- One row of `collected_data`: the flat union of timestamp, route
identity, temporal context, traffic fields and weather fields. -/
structure Record where
  timestamp : String
  route_name : String
  route_id : String
  origin : String
  destination : String
  hour : ℕ
  day_of_week : String
  is_weekend : ℕ
  distance_km : Option ℚ
  duration_minutes : Option ℚ
  traffic_delay_minutes : Option ℚ
  status : String
  temperature : Option ℚ
  humidity : Option ℚ
  weather_condition : Option String
  rain_1h : Option ℚ
  wind_speed : Option ℚ
deriving DecidableEq, Repr

/-- The record assembled for one route (lines 184-226): with a fetched
measurement its traffic fields and status; with `None` null traffic fields
and status failed.  Identity, temporal and weather fields are filled the
same way on both paths. -/
def mkRecord (now : Now) (w : WeatherSnapshot) (r : Route) :
    Option TrafficMeasurement → Record
  | some m =>
    { timestamp := now.timestamp_str, route_name := r.name, route_id := r.id,
      origin := r.origin.name, destination := r.destination.name,
      hour := now.hour, day_of_week := now.dayName,
      is_weekend := if 5 ≤ now.weekday then 1 else 0,
      distance_km := some m.distance_km,
      duration_minutes := some m.duration_minutes,
      traffic_delay_minutes := some m.traffic_delay_minutes,
      status := m.status,
      temperature := w.temperature, humidity := w.humidity,
      weather_condition := w.weather_condition, rain_1h := w.rain_1h,
      wind_speed := w.wind_speed }
  | none =>
    { timestamp := now.timestamp_str, route_name := r.name, route_id := r.id,
      origin := r.origin.name, destination := r.destination.name,
      hour := now.hour, day_of_week := now.dayName,
      is_weekend := if 5 ≤ now.weekday then 1 else 0,
      distance_km := none, duration_minutes := none,
      traffic_delay_minutes := none, status := "failed",
      temperature := w.temperature, humidity := w.humidity,
      weather_condition := w.weather_condition, rain_1h := w.rain_1h,
      wind_speed := w.wind_speed }

/-- The Python truthiness test `if traffic_data:` on the fetch result. -/
def toOpt : FetchOutcome → Option TrafficMeasurement
  | .success m => some m
  | _ => none

/-- The fixed column order of the CSV (lines 234-239). -/
def column_order : List String :=
  ["timestamp", "route_name", "distance_km", "duration_minutes",
   "traffic_delay_minutes", "status", "route_id", "origin",
   "destination", "hour", "day_of_week", "is_weekend",
   "temperature", "humidity", "weather_condition", "rain_1h", "wind_speed"]

/-- A CSV cell for an optional number: pandas writes an empty cell for a
missing value. -/
def optCell : Option ℚ → String
  | none => ""
  | some q => toString q

/-- A CSV cell for an optional text value. -/
def optTextCell : Option String → String
  | none => ""
  | some s => s

/-- One CSV row of a record, cells in `column_order` (the frame is
reindexed to `column_order` before writing, line 240). -/
def toRow (r : Record) : List String :=
  [r.timestamp, r.route_name, optCell r.distance_km,
   optCell r.duration_minutes, optCell r.traffic_delay_minutes, r.status,
   r.route_id, r.origin, r.destination, toString r.hour, r.day_of_week,
   toString r.is_weekend, optCell r.temperature, optCell r.humidity,
   optTextCell r.weather_condition, optCell r.rain_1h,
   optCell r.wind_speed]

/-- The `df.to_csv` call against the date partition (lines 246-251), the
partition as a list of CSV lines: when the file exists, rows are appended
in mode a with `header=False`; when it does not, it is created with the
header line first. -/
def writeDataset (csv : Option (List (List String)))
    (records : List Record) : List (List String) :=
  match csv with
  | some lines => lines ++ records.map toRow
  | none => column_order :: records.map toRow

/-- The inputs of one cycle: the two credentials, the weather response, the
configured routes, the response each route's attempt would receive, the
date partition's current content (none when the file does not exist), and
the clock observation. -/
structure CycleEnv where
  tomtomKey : Option String
  weatherKey : Option String
  weatherResp : HttpResult WeatherPayload
  routes : List Route
  routeResponses : ℕ → ℕ → RouteResp
  csv : Option (List (List String))
  now : Now

/-- The responses the `i`-th route's call of `get_traffic_data` observes:
`collect_all_routes` passes the default `max_retries = 3`. -/
def attemptsFor (env : CycleEnv) (i : ℕ) : List RouteResp :=
  (List.range 3).map (env.routeResponses i)

/-- The per-route loop (lines 173-228): fetch, then build one record per
route; an uncaught exception from the fetcher escapes the loop.  Returns
the records, the HTTP calls made, and whether an exception escaped. -/
def runRoutes (env : CycleEnv) (w : WeatherSnapshot) :
    List Route → ℕ → List Record × ℕ × Bool
  | [], _ => ([], 0, false)
  | r :: rs, i =>
    match (getTrafficLoop (attemptsFor env i)).outcome with
    | .raised => ([], (getTrafficLoop (attemptsFor env i)).calls, true)
    | .success m =>
      (mkRecord env.now w r (some m) :: (runRoutes env w rs (i + 1)).1,
       (getTrafficLoop (attemptsFor env i)).calls +
         (runRoutes env w rs (i + 1)).2.1,
       (runRoutes env w rs (i + 1)).2.2)
    | .absent =>
      (mkRecord env.now w r none :: (runRoutes env w rs (i + 1)).1,
       (getTrafficLoop (attemptsFor env i)).calls +
         (runRoutes env w rs (i + 1)).2.1,
       (runRoutes env w rs (i + 1)).2.2)

/-- What one run of `collect_all_routes()` did. -/
structure CycleResult where
  abortedConfig : Bool
  raised : Bool
  configRead : Bool
  weatherFetched : Bool
  weatherCalls : ℕ
  routeCalls : ℕ
  records : List Record
  csv : Option (List (List String))
  summaryReported : Bool
  succeeded : ℕ

/-- `collect_all_routes()` (lines 147-261): abort before any I/O when the
routing key is unset; otherwise fetch weather once, read the route
configuration, run the per-route loop (an uncaught exception terminates the
cycle before any write), and, only when records were collected, write the
partition and report the summary. -/
def collect_all_routes (env : CycleEnv) : CycleResult :=
  match env.tomtomKey with
  | none =>
    { abortedConfig := true, raised := false, configRead := false,
      weatherFetched := false, weatherCalls := 0, routeCalls := 0,
      records := [], csv := env.csv, summaryReported := false,
      succeeded := 0 }
  | some _ =>
    let w := get_weather_data env.weatherKey env.weatherResp
    let wCalls : ℕ := if env.weatherKey.isSome then 1 else 0
    let loopRes := runRoutes env w env.routes 0
    if loopRes.2.2 then
      { abortedConfig := false, raised := true, configRead := true,
        weatherFetched := true, weatherCalls := wCalls,
        routeCalls := loopRes.2.1, records := [], csv := env.csv,
        summaryReported := false, succeeded := 0 }
    else if loopRes.1.isEmpty then
      { abortedConfig := false, raised := false, configRead := true,
        weatherFetched := true, weatherCalls := wCalls,
        routeCalls := loopRes.2.1, records := loopRes.1, csv := env.csv,
        summaryReported := false, succeeded := 0 }
    else
      { abortedConfig := false, raised := false, configRead := true,
        weatherFetched := true, weatherCalls := wCalls,
        routeCalls := loopRes.2.1, records := loopRes.1,
        csv := some (writeDataset env.csv loopRes.1),
        summaryReported := true,
        succeeded := loopRes.1.countP (fun x => x.status == "success") }

/-- A 200 routing response whose body is malformed: `routes[0]` is present
but its `summary` field (or a required summary field) is missing, so field
navigation raises an uncaught `KeyError`. -/
def malformed200 : RouteResp → Bool
  | .ok status body =>
    if status = 200 then
      match body.routes with
      | some (r0 :: _) =>
        match r0.summary with
        | some s => !(s.lengthInMeters.isSome && s.travelTimeInSeconds.isSome)
        | none => true
      | _ => false
    else false
  | .exn => false

/-- The loop raises only when some attempt received a malformed 200 body. -/
theorem getTrafficLoop_raised {rs : List RouteResp}
    (h : (getTrafficLoop rs).outcome = .raised) :
    ∃ r ∈ rs, malformed200 r = true := by
  induction rs with
  | nil => simp [getTrafficLoop] at h
  | cons r rest ih =>
    cases r with
    | exn =>
      simp only [getTrafficLoop] at h
      obtain ⟨x, hm, hmal⟩ := ih h
      exact ⟨x, List.mem_cons_of_mem _ hm, hmal⟩
    | ok status body =>
      by_cases h200 : status = 200
      · subst h200
        rcases hb : body.routes with _ | ⟨_ | ⟨r0, rtl⟩⟩
        · simp [getTrafficLoop, hb] at h
        · simp [getTrafficLoop, hb] at h
        · rcases hs : r0.summary with _ | s
          · exact ⟨_, List.mem_cons_self _ _, by simp [malformed200, hb, hs]⟩
          · rcases hlen : s.lengthInMeters with _ | len
            · exact ⟨_, List.mem_cons_self _ _,
                by simp [malformed200, hb, hs, hlen]⟩
            · rcases hdur : s.travelTimeInSeconds with _ | dur
              · exact ⟨_, List.mem_cons_self _ _,
                  by simp [malformed200, hb, hs, hlen, hdur]⟩
              · simp [getTrafficLoop, hb, hs, hlen, hdur] at h
      · by_cases h429 : status = 429
        · subst h429
          simp only [getTrafficLoop] at h
          obtain ⟨x, hm, hmal⟩ := ih h
          exact ⟨x, List.mem_cons_of_mem _ hm, hmal⟩
        · simp only [getTrafficLoop, if_neg h200, if_neg h429] at h
          obtain ⟨x, hm, hmal⟩ := ih h
          exact ⟨x, List.mem_cons_of_mem _ hm, hmal⟩

/-- `toOpt` on a success. -/
theorem toOpt_success (m : TrafficMeasurement) : toOpt (.success m) = some m := rfl

/-- `toOpt` on an absent outcome. -/
theorem toOpt_absent : toOpt .absent = none := rfl

/-- With no fetch raising, the loop never escapes and produces, in order,
exactly the record built for each route from its own fetch outcome. -/
theorem runRoutes_no_raise (env : CycleEnv) (w : WeatherSnapshot)
    (rs : List Route) (i0 : ℕ)
    (h : ∀ j, j < rs.length →
      (getTrafficLoop (attemptsFor env (i0 + j))).outcome ≠ .raised) :
    (runRoutes env w rs i0).2.2 = false ∧
      (runRoutes env w rs i0).1 = rs.mapIdx (fun j r =>
        mkRecord env.now w r
          (toOpt (getTrafficLoop (attemptsFor env (i0 + j))).outcome)) := by
  induction rs generalizing i0 with
  | nil => simp [runRoutes]
  | cons r rest ih =>
    have h0 : (getTrafficLoop (attemptsFor env i0)).outcome ≠ .raised := by
      have := h 0 (by simp)
      simpa using this
    have hrest : ∀ j, j < rest.length →
        (getTrafficLoop (attemptsFor env (i0 + 1 + j))).outcome ≠ .raised := by
      intro j hj
      have hlt : j + 1 < (r :: rest).length := by
        simpa using Nat.succ_lt_succ hj
      have := h (j + 1) hlt
      rwa [show i0 + (j + 1) = i0 + 1 + j by omega] at this
    obtain ⟨hfalse, heq⟩ := ih (i0 + 1) hrest
    have hfun : (fun j (x : Route) => mkRecord env.now w x
        (toOpt (getTrafficLoop (attemptsFor env (i0 + (j + 1)))).outcome)) =
        (fun j (x : Route) => mkRecord env.now w x
          (toOpt (getTrafficLoop (attemptsFor env (i0 + 1 + j))).outcome)) := by
      funext j x
      rw [show i0 + (j + 1) = i0 + 1 + j by omega]
    cases ho : (getTrafficLoop (attemptsFor env i0)).outcome with
    | raised => exact absurd ho h0
    | success m =>
      refine ⟨?_, ?_⟩
      · simp only [runRoutes, ho, hfalse]
      · simp only [runRoutes, ho, toOpt_success, List.mapIdx_cons,
          Nat.add_zero, heq, hfun]
    | absent =>
      refine ⟨?_, ?_⟩
      · simp only [runRoutes, ho, hfalse]
      · simp only [runRoutes, ho, toOpt_absent, List.mapIdx_cons,
          Nat.add_zero, heq, hfun]

/-- With the credential present and no fetch raising, the cycle completes:
no config abort, no escaped exception, and the record list is exactly the
per-route map. -/
theorem collect_completes (env : CycleEnv) (k : String)
    (hk : env.tomtomKey = some k)
    (h : ∀ j, j < env.routes.length →
      (getTrafficLoop (attemptsFor env j)).outcome ≠ .raised) :
    (collect_all_routes env).abortedConfig = false ∧
      (collect_all_routes env).raised = false ∧
      (collect_all_routes env).records = env.routes.mapIdx (fun j r =>
        mkRecord env.now (get_weather_data env.weatherKey env.weatherResp) r
          (toOpt (getTrafficLoop (attemptsFor env j)).outcome)) := by
  have h0 : ∀ j, j < env.routes.length →
      (getTrafficLoop (attemptsFor env (0 + j))).outcome ≠ .raised := by
    intro j hj
    simpa using h j hj
  obtain ⟨hfalse, heq⟩ := runRoutes_no_raise env
    (get_weather_data env.weatherKey env.weatherResp) env.routes 0 h0
  simp only [Nat.zero_add] at heq
  unfold collect_all_routes
  rw [hk]
  simp only [hfalse, Bool.false_eq_true, if_false, heq]
  split
  · exact ⟨rfl, rfl, rfl⟩
  · exact ⟨rfl, rfl, rfl⟩

/-- A concrete route used by witnesses. -/
def routeW : Route :=
  { id := "r1", name := "Route A",
    origin := { name := "O", lat := 12, lon := 77 },
    destination := { name := "D", lat := 13, lon := 78 } }

/-- A second concrete route used by witnesses. -/
def routeB : Route :=
  { id := "r2", name := "Route B",
    origin := { name := "O2", lat := 12, lon := 77 },
    destination := { name := "D2", lat := 13, lon := 78 } }

/-- A concrete clock observation (a Wednesday). -/
def nowW : Now :=
  { timestamp_str := "2025-01-01 08:00:00", date_str := "20250101",
    hour := 8, weekday := 2, dayName := "Wednesday" }

/-- C4: when the routing credential is absent the cycle aborts immediately,
before any I/O: the weather fetcher is not invoked and makes no HTTP call,
no route HTTP call is made, the route configuration is not read, no record
is produced, the partition is left untouched and no summary is reported. -/
theorem missing_key_aborts (env : CycleEnv) (h : env.tomtomKey = none) :
    collect_all_routes env =
      { abortedConfig := true, raised := false, configRead := false,
        weatherFetched := false, weatherCalls := 0, routeCalls := 0,
        records := [], csv := env.csv, summaryReported := false,
        succeeded := 0 } := by
  unfold collect_all_routes
  rw [h]

/-- A concrete well-formed weather payload. -/
def weatherPayloadW : WeatherPayload :=
  { main_temp := some 25, main_humidity := some 60,
    weather0_main := some "Clear", rain_1h := none, wind_speed := some 3 }

/-- A cycle environment with the routing key absent. -/
def envNoKey : CycleEnv :=
  { tomtomKey := none, weatherKey := some "wk",
    weatherResp := .ok 200 weatherPayloadW,
    routes := [routeW], routeResponses := fun _ _ => resp429,
    csv := none, now := nowW }

/-- Witness for C4 at a concrete environment with the key unset. -/
theorem missing_key_aborts_witness :
    envNoKey.tomtomKey = none ∧
      collect_all_routes envNoKey =
        { abortedConfig := true, raised := false, configRead := false,
          weatherFetched := false, weatherCalls := 0, routeCalls := 0,
          records := [], csv := none, summaryReported := false,
          succeeded := 0 } :=
  ⟨rfl, missing_key_aborts envNoKey rfl⟩

/-- C9: with the credential present and an empty configured route list, the
cycle produces zero records, performs no dataset write at all (the
partition is left exactly as it was — in particular none is created for the
date), reports no success summary, and the weather fetch still occurs. -/
theorem empty_route_list_no_write (env : CycleEnv) (k : String)
    (hk : env.tomtomKey = some k) (hr : env.routes = []) :
    (collect_all_routes env).records = [] ∧
      (collect_all_routes env).csv = env.csv ∧
      (collect_all_routes env).summaryReported = false ∧
      (collect_all_routes env).weatherFetched = true := by
  unfold collect_all_routes
  rw [hk, hr]
  simp [runRoutes]

/-- A cycle environment with the key present and no configured routes. -/
def envEmptyRoutes : CycleEnv :=
  { tomtomKey := some "tk", weatherKey := none, weatherResp := .exn,
    routes := [], routeResponses := fun _ _ => resp429, csv := none,
    now := nowW }

/-- Witness for C9 at a concrete environment with no routes. -/
theorem empty_route_list_no_write_witness :
    envEmptyRoutes.tomtomKey = some "tk" ∧ envEmptyRoutes.routes = [] ∧
      ((collect_all_routes envEmptyRoutes).records = [] ∧
        (collect_all_routes envEmptyRoutes).csv = none ∧
        (collect_all_routes envEmptyRoutes).summaryReported = false ∧
        (collect_all_routes envEmptyRoutes).weatherFetched = true) :=
  ⟨rfl, rfl, empty_route_list_no_write envEmptyRoutes "tk" rfl rfl⟩

/-- No attempt malformed implies no fetch of the cycle raises. -/
theorem no_malformed_no_raise (env : CycleEnv)
    (hwf : ∀ j, j < env.routes.length →
      ∀ r ∈ attemptsFor env j, malformed200 r = false) :
    ∀ j, j < env.routes.length →
      (getTrafficLoop (attemptsFor env j)).outcome ≠ .raised := by
  intro j hj hcontra
  obtain ⟨r, hmem, hmal⟩ := getTrafficLoop_raised hcontra
  rw [hwf j hj r hmem] at hmal
  exact Bool.false_ne_true hmal

/-- C3 (amended): with the routing credential present and no attempt
receiving a malformed 200 routing body (which would terminate the cycle by
an uncaught exception), the cycle produces exactly one record per
configured route, in the order supplied (the j-th record is built by
`mkRecord` from the j-th route and its own fetch outcome), and a route
whose fetch returned `None` yields a record with null traffic fields and
status failed that still carries the route identity, the temporal context
and the cycle's weather fields. -/
theorem one_record_per_route (env : CycleEnv) (k : String)
    (hk : env.tomtomKey = some k)
    (hwf : ∀ j, j < env.routes.length →
      ∀ r ∈ attemptsFor env j, malformed200 r = false) :
    (collect_all_routes env).records.length = env.routes.length ∧
      (collect_all_routes env).records = env.routes.mapIdx (fun j r =>
        mkRecord env.now (get_weather_data env.weatherKey env.weatherResp) r
          (toOpt (getTrafficLoop (attemptsFor env j)).outcome)) ∧
      ∀ (r : Route) (w : WeatherSnapshot), mkRecord env.now w r none =
        { timestamp := env.now.timestamp_str, route_name := r.name,
          route_id := r.id, origin := r.origin.name,
          destination := r.destination.name, hour := env.now.hour,
          day_of_week := env.now.dayName,
          is_weekend := if 5 ≤ env.now.weekday then 1 else 0,
          distance_km := none, duration_minutes := none,
          traffic_delay_minutes := none, status := "failed",
          temperature := w.temperature, humidity := w.humidity,
          weather_condition := w.weather_condition, rain_1h := w.rain_1h,
          wind_speed := w.wind_speed } := by
  obtain ⟨_, _, hrec⟩ := collect_completes env k hk (no_malformed_no_raise env hwf)
  refine ⟨?_, hrec, fun r w => rfl⟩
  rw [hrec, List.length_mapIdx]

/-- A 200 response whose `routes[0].summary` is present but misses the
`lengthInMeters` field. -/
def respNoLen : RouteResp :=
  .ok 200 { routes := some [{ summary := some { lengthInMeters := none, travelTimeInSeconds := some 900, trafficDelayInSeconds := none } }] }

/-- A cycle environment whose single route always receives `respNoLen`. -/
def envNoLen : CycleEnv :=
  { tomtomKey := some "tk", weatherKey := none, weatherResp := .exn,
    routes := [routeW], routeResponses := fun _ _ => respNoLen,
    csv := none, now := nowW }

/-- C3 counterexample: a cycle whose single route receives HTTP 200 with
`routes[0].summary` present but `lengthInMeters` missing produces zero
records for one configured route — the uncaught KeyError terminates the
cycle, so the record count does not equal the route count. -/
theorem one_record_per_route_cex :
    (collect_all_routes envNoLen).records.length ≠ [routeW].length := by
  decide

/-- A cycle environment with two routes: the first succeeds on its first
attempt, the second fails all three attempts with network exceptions. -/
def envMixed : CycleEnv :=
  { tomtomKey := some "tk", weatherKey := none, weatherResp := .exn,
    routes := [routeW, routeB],
    routeResponses := fun i _ => if i = 0 then respW else .exn,
    csv := none, now := nowW }

/-- Witness for C3 at `envMixed`: two records for two routes, in order. -/
theorem one_record_per_route_witness :
    (collect_all_routes envMixed).records.length = envMixed.routes.length ∧
      (collect_all_routes envMixed).records = envMixed.routes.mapIdx
        (fun j r => mkRecord envMixed.now
          (get_weather_data envMixed.weatherKey envMixed.weatherResp) r
          (toOpt (getTrafficLoop (attemptsFor envMixed j)).outcome)) ∧
      ∀ (r : Route) (w : WeatherSnapshot), mkRecord envMixed.now w r none =
        { timestamp := envMixed.now.timestamp_str, route_name := r.name,
          route_id := r.id, origin := r.origin.name,
          destination := r.destination.name, hour := envMixed.now.hour,
          day_of_week := envMixed.now.dayName,
          is_weekend := if 5 ≤ envMixed.now.weekday then 1 else 0,
          distance_km := none, duration_minutes := none,
          traffic_delay_minutes := none, status := "failed",
          temperature := w.temperature, humidity := w.humidity,
          weather_condition := w.weather_condition, rain_1h := w.rain_1h,
          wind_speed := w.wind_speed } :=
  one_record_per_route envMixed "tk" rfl (by decide)

/-- C1 counterexample: with the routing credential present, a single route
whose fetch receives HTTP 200 with `routes[0]` present but its `summary`
missing terminates the whole cycle by an uncaught exception — no record is
produced and nothing is written — refuting that every non-credential
failure is contained. -/
theorem malformed_200_terminates_cycle_cex :
    (collect_all_routes
        { tomtomKey := some "tk", weatherKey := none, weatherResp := .exn,
          routes := [routeW],
          routeResponses := fun _ _ => .ok 200 { routes := some [{ summary := none }] },
          csv := none, now := nowW }).raised = true ∧
      (collect_all_routes
        { tomtomKey := some "tk", weatherKey := none, weatherResp := .exn,
          routes := [routeW],
          routeResponses := fun _ _ => .ok 200 { routes := some [{ summary := none }] },
          csv := none, now := nowW }).records = [] := by
  exact ⟨rfl, rfl⟩

/-- C1 (amended): with the routing credential present, every handled
failure kind is contained to its route or to the weather snapshot: as long
as no attempt receives a malformed 200 routing body (`routes[0]` present
but a summary field missing), the cycle neither aborts on configuration nor
terminates by exception, and still yields one record per route; weather
failures are always contained since the weather fetcher is total.  A
malformed 200 routing body, however, raises an uncaught KeyError that
terminates the cycle. -/
theorem handled_failures_contained (env : CycleEnv) (k : String)
    (hk : env.tomtomKey = some k)
    (hwf : ∀ j, j < env.routes.length →
      ∀ r ∈ attemptsFor env j, malformed200 r = false) :
    (collect_all_routes env).abortedConfig = false ∧
      (collect_all_routes env).raised = false ∧
      (collect_all_routes env).records.length = env.routes.length := by
  obtain ⟨ha, hr, hrec⟩ :=
    collect_completes env k hk (no_malformed_no_raise env hwf)
  refine ⟨ha, hr, ?_⟩
  rw [hrec, List.length_mapIdx]

/-- A cycle environment whose single route fails all attempts with network
exceptions — a handled failure kind. -/
def envTransient : CycleEnv :=
  { tomtomKey := some "tk", weatherKey := none, weatherResp := .exn,
    routes := [routeW], routeResponses := fun _ _ => .exn, csv := none,
    now := nowW }

/-- Witness for C1 (amended) at `envTransient`: the cycle completes with
one (failed) record despite every attempt failing. -/
theorem handled_failures_contained_witness :
    (collect_all_routes envTransient).abortedConfig = false ∧
      (collect_all_routes envTransient).raised = false ∧
      (collect_all_routes envTransient).records.length =
        envTransient.routes.length :=
  handled_failures_contained envTransient "tk" rfl (by decide)

/-- C8: for a non-empty record set, the sink writes the header — in the
fixed 17-column order `column_order` — only when the partition does not yet
exist; appending to an existing partition appends the rows after the
existing lines, leaving the existing content (in particular its header
line) unchanged and in place. -/
theorem header_only_on_create (records : List Record)
    (store : Option (List (List String))) (h : records ≠ []) :
    (store = none →
      writeDataset store records = column_order :: records.map toRow) ∧
    (∀ lines, store = some lines →
      writeDataset store records = lines ++ records.map toRow ∧
        (writeDataset store records).take lines.length = lines) := by
  constructor
  · intro hnone
    subst hnone
    rfl
  · intro lines hsome
    subst hsome
    exact ⟨rfl, List.take_left _ _⟩

/-- A concrete (failed) record used by the sink witness. -/
def recW : Record := mkRecord nowW nullWeather routeW none

/-- Witness for C8 at one record against a missing and an existing
partition. -/
theorem header_only_on_create_witness :
    ([recW] ≠ ([] : List Record)) ∧
      writeDataset none [recW] = column_order :: [recW].map toRow ∧
      writeDataset (some [["existing"]]) [recW] =
        [["existing"]] ++ [recW].map toRow ∧
      (writeDataset (some [["existing"]]) [recW]).take 1 = [["existing"]] := by
  refine ⟨by simp, ?_, ?_, ?_⟩
  · exact (header_only_on_create [recW] none (by simp)).1 rfl
  · exact ((header_only_on_create [recW] (some [["existing"]])
      (by simp)).2 [["existing"]] rfl).1
  · exact ((header_only_on_create [recW] (some [["existing"]])
      (by simp)).2 [["existing"]] rfl).2

end Traffic
